import Mathlib

/-!
Verification of the Formlabs Home Assistant integration against its
natural-language specification.

The development shallowly embeds the Python sources:
  * `coordinator.py` (`FormlabsCoordinator._async_update_data`),
  * `custom_components/formlabs/api.py` (`FormlabsApi`),
  * `custom_components/formlabs/sensor.py` (progress / cartridge / redaction helpers),
  * `binary_sensor.py` and `custom_components/formlabs/binary_sensor.py`
    (the two "Online" indicators).

JSON payloads are modelled by the inductive `JValue`; Python dictionaries by
association lists `JObj`; Python truthiness by `JValue.toBool`; fallible code
by `Option`/`Except`.  Machine floats are modelled by exact rationals `ℚ`:
every arithmetic step of the embedded code (subtraction, division, clamping,
Python `round(x, 1)` with its round-half-to-even tie rule) is reproduced
exactly; binary floating-point representation error is not modelled.
-/

namespace Formlabs

/-- A JSON value: the payload shapes handled by the integration. -/
inductive JValue where
  | null
  | bool (b : Bool)
  | num (q : ℚ)
  | str (s : String)
  | arr (xs : List JValue)
  | obj (kvs : List (String × JValue))

/-- A Python dict with string keys (the shape of every object the code reads). -/
abbrev JObj := List (String × JValue)

/-- Python truthiness (`bool(v)`): `None`, `False`, `0`, `""`, `[]`, `{}` are falsy. -/
def JValue.toBool : JValue → Bool
  | .null => false
  | .bool b => b
  | .num q => decide (q ≠ 0)
  | .str s => decide (s ≠ "")
  | .arr xs => !xs.isEmpty
  | .obj kvs => !kvs.isEmpty

/-- The `v is None` test. -/
def JValue.isNull : JValue → Bool
  | .null => true
  | _ => false

/-- The `isinstance(v, dict)` test. -/
def JValue.isObj : JValue → Bool
  | .obj _ => true
  | _ => false

/-- View a value as a dict, as code that calls `.get` on it does.  In Python a
non-dict would raise `AttributeError` on `.get`; the modelled payloads are
always objects at these positions, and the empty-object default makes every
such lookup miss, which leads to the same error branch in the callers. -/
def JValue.asObj : JValue → JObj
  | .obj kvs => kvs
  | _ => []

/-- `d.get(k)`: first binding for `k`, defaulting to `None`. -/
def jGet (o : JObj) (k : String) : JValue :=
  match List.lookup k o with
  | some v => v
  | none => JValue.null

/-- `d.get(k, default)`: the default is used only when the key is absent. -/
def jGetD (o : JObj) (k : String) (d : JValue) : JValue :=
  match List.lookup k o with
  | some v => v
  | none => d

/-- Python `a or b`: `a` when truthy, otherwise `b`. -/
def pyOr (a b : JValue) : JValue :=
  if a.toBool then a else b

/-- Python `float(v)` on the payload scalars the code converts: numbers convert
to themselves and booleans to `0`/`1`; `None` and containers raise
`TypeError` (modelled as `none`).  Numeric string literals are not modelled
(treated as the failing case); no modelled payload carries them. -/
def pyFloat : JValue → Option ℚ
  | .num q => some q
  | .bool b => some (if b then 1 else 0)
  | _ => none

/-- Python `str(v)` for the scalar values the code stringifies (serial numbers
and status labels).  A non-integral number would render with Python's decimal
notation and containers with their `repr`; neither occurs as a serial or
status in the modelled payloads, so those cases keep a placeholder rendering. -/
def pyStr : JValue → String
  | .null => "None"
  | .bool b => if b then "True" else "False"
  | .num q => if q.den = 1 then toString q.num else toString q
  | .str s => s
  | .arr _ => "<list>"
  | .obj _ => "<dict>"

/-- Whether `pat` occurs at the start of `l`. -/
def charsStartWith : List Char → List Char → Bool
  | [], _ => true
  | _ :: _, [] => false
  | a :: as, b :: bs => a == b && charsStartWith as bs

/-- Whether `pat` occurs contiguously anywhere in `l`. -/
def charsContain (pat : List Char) : List Char → Bool
  | [] => pat.isEmpty
  | c :: rest => charsStartWith pat (c :: rest) || charsContain pat rest

/-- Python `sub in s`: substring containment. -/
def strContains (s sub : String) : Bool :=
  charsContain sub.toList s.toList

/-- Python `s.upper()` (character-wise; the statuses compared are ASCII). -/
def pyUpper (s : String) : String := ⟨s.data.map Char.toUpper⟩

/-- Python `s.lower()` (character-wise; the keys compared are ASCII). -/
def pyLower (s : String) : String := ⟨s.data.map Char.toLower⟩

/-!
API client (`custom_components/formlabs/api.py`).

An HTTP exchange is modelled by the response the transport would deliver:
`status` is `resp.status`, `text` is `await resp.text()` and `body` is
`await resp.json()`.  The client state carries the mutable fields of
`FormlabsApi`: `self._token` (initially `None`) and `self._token_type`
(initially `"Bearer"`).  The exceptions `FormlabsAuthError` and
`FormlabsApiError` are raised with f-string messages over exactly the fields
recorded by the constructors below, so an error value carries precisely the
data its Python message interpolates.  Each token-exchange function also
returns how many token-endpoint requests it performed, the observable the
spec's mock-transport properties count.
-/

/-- The mutable state of `FormlabsApi` (`self._token`, `self._token_type`). -/
structure ApiState where
  token : JValue
  tokenType : JValue

/-- The state of a freshly constructed client: no token, type `"Bearer"`. -/
def initialApiState : ApiState :=
  { token := JValue.null, tokenType := JValue.str "Bearer" }

/-- One HTTP response: status code, raw text body, parsed JSON body. -/
structure HttpResponse where
  status : Nat
  text : String
  body : JValue

/-- `FormlabsAuthError`, raised by `async_get_token`:
`tokenError status body` is `f"Token error {status}: {text}"` and
`tokenMissing payload` is `f"Token missing in response: {payload}"`. -/
inductive FormlabsAuthError where
  | tokenError (status : Nat) (body : String)
  | tokenMissing (payload : JObj)

/-- `FormlabsApiError`, raised by `_request`:
`apiError status path body` is `f"API error {status} on {path}: {text}"`. -/
inductive FormlabsApiError where
  | apiError (status : Nat) (path : String) (body : String)

/-- `FormlabsApi.async_get_token`, given the response the token endpoint would
return if called.  A cached (truthy) token is returned with no request.
Otherwise one POST is made: a non-200 status raises `FormlabsAuthError` with
the body; then `self._token = payload.get("access_token")` and a falsy token
raises `FormlabsAuthError`; on success the token-type label is cached
(`payload.get("token_type", "Bearer")`) and the token returned.  The third
component counts token-endpoint requests. -/
def getToken (st : ApiState) (resp : HttpResponse) :
    ApiState × Except FormlabsAuthError JValue × Nat :=
  if st.token.toBool then
    (st, Except.ok st.token, 0)
  else if resp.status ≠ 200 then
    (st, Except.error (FormlabsAuthError.tokenError resp.status resp.text), 1)
  else
    let payload := resp.body.asObj
    let tok := jGet payload "access_token"
    let st1 := { st with token := tok }
    if !tok.toBool then
      (st1, Except.error (FormlabsAuthError.tokenMissing payload), 1)
    else
      ({ st1 with tokenType := jGetD payload "token_type" (JValue.str "Bearer") },
       Except.ok tok, 1)

/-- The response-handling half of `FormlabsApi._request` (after the token was
obtained): a status `≥ 400` clears the cached token when it is 401 or 403 and
raises `FormlabsApiError` carrying status, path and body; otherwise the parsed
JSON body is returned. -/
def requestStep (st : ApiState) (path : String) (resp : HttpResponse) :
    ApiState × Except FormlabsApiError JValue :=
  if 400 ≤ resp.status then
    let st' := if resp.status = 401 ∨ resp.status = 403 then
        { st with token := JValue.null }
      else st
    (st', Except.error (FormlabsApiError.apiError resp.status path resp.text))
  else
    (st, Except.ok resp.body)

/-- Either kind of exception escaping `FormlabsApi._request`. -/
inductive RequestError where
  | auth (e : FormlabsAuthError)
  | api (e : FormlabsApiError)

/-- `FormlabsApi._request` in full: obtain a token via `async_get_token`
(performing a token-endpoint request only when none is cached), then issue the
data request and handle its response.  The count is of token-endpoint
requests, as in `getToken`. -/
def FormlabsApi.request (st : ApiState) (tokenResp : HttpResponse) (path : String)
    (resp : HttpResponse) : ApiState × Except RequestError JValue × Nat :=
  match getToken st tokenResp with
  | (st1, Except.error e, n) => (st1, Except.error (RequestError.auth e), n)
  | (st1, Except.ok _, n) =>
    match requestStep st1 path resp with
    | (st2, Except.error e) => (st2, Except.error (RequestError.api e), n)
    | (st2, Except.ok v) => (st2, Except.ok v, n)

/-!
Poll coordinator (`coordinator.py`, `FormlabsCoordinator._async_update_data`).

The fetch `await self._api.async_list_printers()` either yields a list of
printer objects or raises; `FetchResult` records which.  (A malformed body —
not a list of dicts — would raise inside the same `try` block and is covered
by the `err` case.)  The `for` loop over the fetched list is the
tail-recursive `buildBySerialAux`, threading the dict being built and the
debug-log messages emitted for skipped entries; a log entry is modelled by
the key list `list(p.keys())` that the message interpolates.
-/

/-- Outcome of `async_list_printers` inside the coordinator's `try`. -/
inductive FetchResult where
  | ok (printers : List JObj)
  | err (msg : String)

/-- The `UpdateFailed(str(err))` exception raised by `_async_update_data`. -/
structure UpdateFailed where
  msg : String

/-- `by_serial[k] = v` on a Python dict: overwrite in place if the key exists,
append otherwise. -/
def insertSerial (m : List (String × JObj)) (k : String) (v : JObj) :
    List (String × JObj) :=
  if m.any (fun kv => kv.1 == k) then
    m.map (fun kv => if kv.1 == k then (k, v) else kv)
  else m ++ [(k, v)]

/-- The coordinator's loop: for each printer `p`, read `p.get("serial")`;
a falsy serial is skipped with a debug log of `p`'s keys; otherwise
`by_serial[str(serial)] = p`. -/
def buildBySerialAux (acc : List (String × JObj)) (logs : List (List String)) :
    List JObj → List (String × JObj) × List (List String)
  | [] => (acc, logs)
  | p :: rest =>
    let serial := jGet p "serial"
    if serial.toBool then
      buildBySerialAux (insertSerial acc (pyStr serial) p) logs rest
    else
      buildBySerialAux acc (logs ++ [p.map Prod.fst]) rest

/-- The dict and the skip-log produced from one fetched printer list. -/
def buildBySerial (ps : List JObj) : List (String × JObj) × List (List String) :=
  buildBySerialAux [] [] ps

/-- The value `{"printers_by_serial": by_serial}` returned on success. -/
structure SnapshotData where
  printers_by_serial : List (String × JObj)

/-- `FormlabsCoordinator._async_update_data`: on a successful fetch, the
serial-keyed dict is wrapped and returned; any exception from the fetch is
wrapped as `UpdateFailed(str(err))`. -/
def asyncUpdateData : FetchResult → Except UpdateFailed SnapshotData
  | FetchResult.ok ps => Except.ok ⟨(buildBySerial ps).1⟩
  | FetchResult.err e => Except.error ⟨e⟩

/-- Modelled from the spec: the host scheduler's handling of one poll tick
(`DataUpdateCoordinator` is Home Assistant library code, not in `src/`).
Per spec sections 4.3 and 7, a successful `_async_update_data` replaces the
published snapshot and an `UpdateFailed` leaves the previous snapshot
unchanged while signalling failure (`last_update_success = false`). -/
def coordinatorTick (prev : Option SnapshotData) (f : FetchResult) :
    Option SnapshotData × Bool :=
  match asyncUpdateData f with
  | Except.ok d => (some d, true)
  | Except.error _ => (prev, false)

/-- The last entry of `ps` whose serial is truthy and stringifies to `k`
(later entries are preferred, as later dict assignments overwrite earlier
ones). -/
def lastMatch (ps : List JObj) (k : String) : Option JObj :=
  match ps with
  | [] => none
  | p :: rest =>
    match lastMatch rest k with
    | some q => some q
    | none =>
      if (jGet p "serial").toBool && pyStr (jGet p "serial") == k then some p
      else none

/-!
Sensor helpers (`custom_components/formlabs/sensor.py`).
-/

/-- `_printer_status`: `printer.get("printer_status")` if it is a dict,
otherwise `{}`. -/
def printerStatus (p : JObj) : JObj :=
  (jGet p "printer_status").asObj

/-- `_current_print_run`: the status's `current_print_run` if it is a dict,
otherwise `None`. -/
def currentPrintRun (p : JObj) : Option JObj :=
  match jGet (printerStatus p) "current_print_run" with
  | JValue.obj kvs => some kvs
  | _ => none

/-- `max(0.0, min(100.0, f))`. -/
def pyClamp (f : ℚ) : ℚ := max 0 (min 100 f)

/-- Python's round-half-to-even on an exact value. -/
def roundHalfEven (q : ℚ) : ℤ :=
  if q - ⌊q⌋ < 1/2 then ⌊q⌋
  else if 1/2 < q - ⌊q⌋ then ⌊q⌋ + 1
  else if ⌊q⌋ % 2 = 0 then ⌊q⌋ else ⌊q⌋ + 1

/-- Python `round(x, 1)` on an exact value (binary-float representation error
is not modelled). -/
def pyRound1 (q : ℚ) : ℚ := (roundHalfEven (q * 10) : ℚ) / 10

/-- Branch 1 of `FormlabsProgressPercentSensor.native_value`: the direct
`progress` / `progress_percent` field, scaled from a fraction when it lies in
`[0, 1]`, clamped and rounded; `none` when the field is `None` or `float()`
raises (the `except: pass` fall-through). -/
def progressDirect (run : JObj) : Option ℚ :=
  let val := pyOr (jGet run "progress") (jGet run "progress_percent")
  if val.isNull then none
  else
    match pyFloat val with
    | some f => some (pyRound1 (pyClamp (if 0 ≤ f ∧ f ≤ 1 then f * 100 else f)))
    | none => none

/-- Branch 2: computed from `currently_printing_layer / layer_count * 100`,
guarded by `cur_layer is not None and layer_count` (truthiness, so a zero
layer count never reaches the division); conversion failures and
`ZeroDivisionError` fall through. -/
def progressFromLayers (run : JObj) : Option ℚ :=
  let cur := jGet run "currently_printing_layer"
  let cnt := jGet run "layer_count"
  if !cur.isNull && cnt.toBool then
    match pyFloat cur, pyFloat cnt with
    | some a, some b =>
      if b = 0 then none else some (pyRound1 (pyClamp (a / b * 100)))
    | _, _ => none
  else none

/-- Branch 3: the time fallback `elapsed_duration_ms / estimated_duration_ms *
100`, with the same guard and failure shape as the layer branch. -/
def progressFromTime (run : JObj) : Option ℚ :=
  let elapsed := jGet run "elapsed_duration_ms"
  let total := jGet run "estimated_duration_ms"
  if !elapsed.isNull && total.toBool then
    match pyFloat elapsed, pyFloat total with
    | some a, some b =>
      if b = 0 then none else some (pyRound1 (pyClamp (a / b * 100)))
    | _, _ => none
  else none

/-- `FormlabsProgressPercentSensor.native_value`: `0.0` without a (nonempty)
current print run, else the first of the three branches that produces a
value, else the stable `0.0`. -/
def progressNativeValue (p : JObj) : JValue :=
  match currentPrintRun p with
  | none => JValue.num 0
  | some run =>
    if run.isEmpty then JValue.num 0
    else
      match progressDirect run with
      | some f => JValue.num f
      | none =>
        match progressFromLayers run with
        | some f => JValue.num f
        | none =>
          match progressFromTime run with
          | some f => JValue.num f
          | none => JValue.num 0

/-- `_cartridge_status_item`: a dict `cartridge_status` is used directly
(Form 4); a list selects its first dict entry whose `cartridge` field is a
dict (Form 3/3L); anything else gives `None`. -/
def cartridgeStatusItem (p : JObj) : Option JObj :=
  match jGet p "cartridge_status" with
  | JValue.obj kvs => some kvs
  | JValue.arr xs => firstCartridgeItem xs
  | _ => none
where
  firstCartridgeItem : List JValue → Option JObj
    | [] => none
    | JValue.obj item :: rest =>
      if (jGet item "cartridge").isObj then some item
      else firstCartridgeItem rest
    | _ :: rest => firstCartridgeItem rest

/-- `_cartridge_obj`: the item's `cartridge` field when the item is truthy and
the field is a dict. -/
def cartridgeObj (p : JObj) : Option JObj :=
  match cartridgeStatusItem p with
  | none => none
  | some item =>
    if item.isEmpty then none
    else
      match jGet item "cartridge" with
      | JValue.obj cart => some cart
      | _ => none

/-- `_cartridge_remaining_ml`: `float(initial_volume_ml) -
float(volume_dispensed_ml)`, floored at `0.0`; `None` when there is no truthy
cartridge object, either field is `None`, or a conversion raises. -/
def cartridgeRemainingMl (p : JObj) : Option ℚ :=
  match cartridgeObj p with
  | none => none
  | some cart =>
    if cart.isEmpty then none
    else
      let initV := jGet cart "initial_volume_ml"
      let dispV := jGet cart "volume_dispensed_ml"
      if initV.isNull || dispV.isNull then none
      else
        match pyFloat initV, pyFloat dispV with
        | some i, some d => some (if i - d < 0 then 0 else i - d)
        | _, _ => none

/-- `_SENSITIVE_SUBSTRINGS`. -/
def sensitiveSubstrings : List String :=
  ["token", "secret", "password", "authorization", "cookie", "signature",
   "awsaccesskeyid", "email"]

/-- Whether a dict key triggers redaction:
`any(s in str(k).lower() for s in _SENSITIVE_SUBSTRINGS)`. -/
def sensitiveKey (k : String) : Bool :=
  sensitiveSubstrings.any (fun s => strContains (pyLower k) s)

mutual
/-- `_redact`: dict values under sensitive keys become `"***REDACTED***"`,
other dict values and list elements are redacted recursively, scalars are
returned unchanged. -/
def redact : JValue → JValue
  | JValue.null => JValue.null
  | JValue.bool b => JValue.bool b
  | JValue.num q => JValue.num q
  | JValue.str s => JValue.str s
  | JValue.arr xs => JValue.arr (redactList xs)
  | JValue.obj kvs => JValue.obj (redactObj kvs)

/-- The list comprehension of `_redact` over a list. -/
def redactList : List JValue → List JValue
  | [] => []
  | x :: rest => redact x :: redactList rest

/-- The key loop of `_redact` over a dict's items. -/
def redactObj : List (String × JValue) → List (String × JValue)
  | [] => []
  | (k, v) :: rest =>
    (if sensitiveKey k then (k, JValue.str "***REDACTED***") else (k, redact v))
      :: redactObj rest
end

mutual
/-- Whether a value contains no sensitive dict key anywhere (used to state
that redaction leaves such values untouched). -/
def cleanJ : JValue → Bool
  | JValue.arr xs => cleanList xs
  | JValue.obj kvs => cleanObj kvs
  | _ => true

/-- `cleanJ` over a list's elements. -/
def cleanList : List JValue → Bool
  | [] => true
  | x :: rest => cleanJ x && cleanList rest

/-- `cleanJ` over a dict's items. -/
def cleanObj : List (String × JValue) → Bool
  | [] => true
  | (k, v) :: rest => !sensitiveKey k && cleanJ v && cleanObj rest
end

/-!
The two "Online" indicators.

`binary_sensor.py` (`FormlabsOnlineBinary.is_on`) compares the last-ping
timestamp against `ONLINE_MAX_AGE = timedelta(minutes=10)`.  Aware datetimes
are modelled as epoch-second rationals (`JValue.num`), the only payload shape
the model reads back; ISO-string timestamps go through `dt_util.parse_datetime`
in Python and are not modelled (they fall to the `None` branch here, as an
unparseable string does in the source).  A datetime object is always truthy;
modelled payloads use positive epoch times, so `JValue.toBool` agrees.

`custom_components/formlabs/binary_sensor.py`
(`FormlabsOnlineBinarySensor.is_on`) ignores ping times entirely and tests the
status string.
-/

/-- `ONLINE_MAX_AGE`, in seconds. -/
def ONLINE_MAX_AGE : ℚ := 600

/-- `_last_ping_dt`: `printer_status.last_pinged_at or printer.last_pinged_at`,
`None` when falsy, the timestamp when it is a datetime. -/
def lastPingDt (p : JObj) : Option ℚ :=
  let v := pyOr (jGet (printerStatus p) "last_pinged_at") (jGet p "last_pinged_at")
  if !v.toBool then none
  else
    match v with
    | JValue.num t => some t
    | _ => none

/-- `FormlabsOnlineBinary.is_on` at current time `now` (epoch seconds):
a last ping exists and `now - dt <= ONLINE_MAX_AGE`. -/
def onlineBinaryIsOn (now : ℚ) (p : JObj) : Bool :=
  match lastPingDt p with
  | none => false
  | some t => decide (now - t ≤ ONLINE_MAX_AGE)

/-- `_status` in `custom_components/formlabs/binary_sensor.py`:
`str(val)` of the status field, `None` when absent or null. -/
def statusStr (p : JObj) : Option String :=
  match jGet (printerStatus p) "status" with
  | JValue.null => none
  | v => some (pyStr v)

/-- `FormlabsOnlineBinarySensor.is_on`: a status exists and its uppercase form
is not `OFFLINE`, `DISCONNECTED` or `UNKNOWN`. -/
def onlineSensorIsOn (p : JObj) : Bool :=
  match statusStr p with
  | none => false
  | some s => !(["OFFLINE", "DISCONNECTED", "UNKNOWN"].contains (pyUpper s))

/-!
Helper lemmas.
-/

/-- `None` is falsy. -/
theorem JValue.toBool_null : JValue.null.toBool = false := rfl

/-- A token-less client state performs exactly one token-endpoint request on
`async_get_token`, whatever the response. -/
theorem getToken_count_of_no_token (st : ApiState) (resp : HttpResponse)
    (h : st.token.toBool = false) : (getToken st resp).2.2 = 1 := by
  unfold getToken
  rw [h]
  simp only [Bool.false_eq_true, if_false]
  split
  · rfl
  · split <;> rfl

/-- Looking up the key just assigned finds the new value. -/
theorem lookup_insertSerial_self (m : List (String × JObj)) (k : String) (v : JObj) :
    List.lookup k (insertSerial m k v) = some v := by
  unfold insertSerial
  split
  case isTrue h =>
    induction m with
    | nil => simp at h
    | cons a rest ih =>
      obtain ⟨a1, a2⟩ := a
      by_cases ha : a1 = k
      · simp [List.lookup_cons, ha]
      · have h' : rest.any (fun kv => kv.1 == k) = true := by
          simp only [List.any_cons, Bool.or_eq_true] at h
          rcases h with h | h
          · exact absurd (by simpa using h) ha
          · exact h
        have hne : (k == a1) = false := by
          simp only [beq_eq_false_iff_ne]
          exact fun he => ha he.symm
        simpa [List.lookup_cons, ha, hne] using ih h'
  case isFalse h =>
    induction m with
    | nil => simp
    | cons a rest ih =>
      obtain ⟨a1, a2⟩ := a
      simp only [List.any_cons, Bool.or_eq_true, not_or] at h
      have hne : (k == a1) = false := by
        simp only [beq_eq_false_iff_ne]
        intro he
        exact h.1 (by simp [he])
      simp only [List.cons_append, List.lookup_cons, hne]
      exact ih (by simpa using h.2)

/-- Assigning one key leaves lookups of other keys unchanged. -/
theorem lookup_insertSerial_ne (m : List (String × JObj)) (k k' : String) (v : JObj)
    (hne : k' ≠ k) : List.lookup k' (insertSerial m k v) = List.lookup k' m := by
  unfold insertSerial
  split
  case isTrue h =>
    clear h
    induction m with
    | nil => rfl
    | cons a rest ih =>
      obtain ⟨a1, a2⟩ := a
      by_cases ha : a1 = k
      · have hb1 : (a1 == k) = true := by simp [ha]
        have h1 : (k' == k) = false := by simp [hne]
        have h2 : (k' == a1) = false := by simp [ha, hne]
        simp only [List.map_cons, List.lookup_cons, hb1, if_true, h1, h2]
        exact ih
      · have hb1 : (a1 == k) = false := by simp [ha]
        simp only [List.map_cons, List.lookup_cons, hb1, Bool.false_eq_true, if_false]
        cases hk : k' == a1
        · exact ih
        · rfl
  case isFalse h =>
    clear h
    induction m with
    | nil =>
      have h1 : (k' == k) = false := by simp [hne]
      simp [List.lookup_cons, h1]
    | cons a rest ih =>
      obtain ⟨a1, a2⟩ := a
      simp only [List.cons_append, List.lookup_cons]
      cases hk : k' == a1
      · exact ih
      · rfl

/-- What one run of the coordinator's loop makes of a lookup: the last entry
of the remaining input whose serial is truthy and stringifies to the key,
falling back to the accumulator built so far. -/
theorem lookup_buildBySerialAux (ps : List JObj) :
    ∀ (acc : List (String × JObj)) (logs : List (List String)) (k : String),
      List.lookup k (buildBySerialAux acc logs ps).1 =
        match lastMatch ps k with
        | some p => some p
        | none => List.lookup k acc := by
  induction ps with
  | nil =>
    intro acc logs k
    rfl
  | cons p rest ih =>
    intro acc logs k
    unfold buildBySerialAux lastMatch
    by_cases hs : (jGet p "serial").toBool = true
    · rw [if_pos hs, ih]
      cases hlm : lastMatch rest k with
      | some q => simp [hlm]
      | none =>
        simp only [hlm]
        by_cases hk : pyStr (jGet p "serial") = k
        · rw [hk, lookup_insertSerial_self]
          simp [hs, hk]
        · rw [lookup_insertSerial_ne _ _ _ _ (fun he => hk he.symm)]
          simp [hs, hk]
    · rw [if_neg hs, ih]
      have hs' : (jGet p "serial").toBool = false := Bool.eq_false_iff.mpr hs
      simp only [hs', Bool.false_and, Bool.false_eq_true, if_false]
      cases hlm : lastMatch rest k <;> simp [hlm]

/-- The debug log collected by the loop is exactly the key lists of the
falsy-serial entries, in order. -/
theorem logs_buildBySerialAux (ps : List JObj) :
    ∀ (acc : List (String × JObj)) (logs : List (List String)),
      (buildBySerialAux acc logs ps).2 =
        logs ++ (ps.filter (fun p => !(jGet p "serial").toBool)).map
          (List.map Prod.fst) := by
  induction ps with
  | nil =>
    intro acc logs
    simp [buildBySerialAux]
  | cons p rest ih =>
    intro acc logs
    unfold buildBySerialAux
    by_cases hs : (jGet p "serial").toBool = true
    · rw [if_pos hs, ih]
      simp [List.filter_cons, hs]
    · have hs' : (jGet p "serial").toBool = false := Bool.eq_false_iff.mpr hs
      rw [if_neg hs, ih]
      simp [List.filter_cons, hs']

/-- A list none of whose entries carries a truthy serial stringifying to `k`
has no last match for `k`. -/
theorem lastMatch_eq_none (ps : List JObj) (k : String)
    (h : ∀ r ∈ ps, ¬((jGet r "serial").toBool = true ∧
      pyStr (jGet r "serial") = k)) :
    lastMatch ps k = none := by
  induction ps with
  | nil => rfl
  | cons p rest ih =>
    unfold lastMatch
    rw [ih (fun r hr => h r (List.mem_cons_of_mem _ hr))]
    have hp := h p (List.mem_cons_self _ _)
    have hguard : ((jGet p "serial").toBool &&
        (pyStr (jGet p "serial") == k)) = false := by
      by_cases h1 : (jGet p "serial").toBool = true
      · by_cases h2 : pyStr (jGet p "serial") = k
        · exact absurd ⟨h1, h2⟩ hp
        · simp [h1, h2]
      · simp [Bool.eq_false_iff.mpr h1]
    simp [hguard]

/-- An entry with a truthy serial stringifying to `k` that no later entry
matches is the last match for `k`, wherever it sits in the list. -/
theorem lastMatch_append_middle (pre : List JObj) (q : JObj) (post : List JObj)
    (k : String) (hq : (jGet q "serial").toBool = true)
    (hk : pyStr (jGet q "serial") = k)
    (hpost : ∀ r ∈ post, ¬((jGet r "serial").toBool = true ∧
      pyStr (jGet r "serial") = k)) :
    lastMatch (pre ++ q :: post) k = some q := by
  induction pre with
  | nil =>
    rw [List.nil_append]
    unfold lastMatch
    rw [lastMatch_eq_none post k hpost]
    simp [hq, hk]
  | cons p rest ih =>
    rw [List.cons_append]
    unfold lastMatch
    rw [ih]

/-!
Claim theorems.
-/

/-- C1: if the fetch performed during a poll tick raises any exception, then
`_async_update_data` raises `UpdateFailed` wrapping that exception, and the
previously published snapshot is left unchanged while a failure is
signalled. -/
theorem update_failed_retains_snapshot :
    ∀ (prev : Option SnapshotData) (e : String),
      asyncUpdateData (FetchResult.err e) = Except.error ⟨e⟩ ∧
      coordinatorTick prev (FetchResult.err e) = (prev, false) := by
  intro prev e
  exact ⟨rfl, rfl⟩

/-- C2 (amended): the snapshot built by `_async_update_data` maps, for each
entry whose serial is truthy, `str(serial)` to the last entry in list order
with that serial string (a full unmodified printer object); every entry whose
serial is falsy — which includes absent, null, empty-string, zero and false
serials — is skipped; the three-printer example yields exactly the keys
`A, B`. -/
theorem snapshot_serial_keying :
    (∀ (ps : List JObj) (k : String),
      List.lookup k (buildBySerial ps).1 = lastMatch ps k) ∧
    (∀ (ps : List JObj) (p : JObj), p ∈ ps → (jGet p "serial").toBool = true →
      lastMatch ps (pyStr (jGet p "serial")) ≠ none) ∧
    ((buildBySerial [[("serial", JValue.str "A"), ("x", JValue.num 1)],
        [("serial", JValue.str "B")],
        [("serial", JValue.null), ("y", JValue.num 2)]]).1.map Prod.fst =
      ["A", "B"]) := by
  refine ⟨?_, ?_, rfl⟩
  · intro ps k
    rw [buildBySerial, lookup_buildBySerialAux]
    cases hlm : lastMatch ps k <;> simp [hlm]
  · intro ps p hp hs
    induction ps with
    | nil => cases hp
    | cons q rest ih =>
      unfold lastMatch
      cases hlm : lastMatch rest (pyStr (jGet p "serial")) with
      | some r => simp
      | none =>
        rcases List.mem_cons.mp hp with hq | hq
        · subst hq
          simp [hs]
        · exact absurd hlm (ih hq)

/-- C2 witness: in a concrete two-printer list both truthy serials are keyed,
and the lookup agrees with the last-match characterization. -/
theorem snapshot_serial_keying_witness :
    lastMatch [[("serial", JValue.str "A")], [("serial", JValue.str "B")]]
      (pyStr (jGet [("serial", JValue.str "A")] "serial")) ≠ none ∧
    List.lookup "A"
        (buildBySerial [[("serial", JValue.str "A")], [("serial", JValue.str "B")]]).1 =
      lastMatch [[("serial", JValue.str "A")], [("serial", JValue.str "B")]] "A" := by
  exact ⟨snapshot_serial_keying.2.1 _ [("serial", JValue.str "A")]
      (List.mem_cons_self _ _) rfl,
    snapshot_serial_keying.1 _ "A"⟩

/-- C2 counterexample: an entry whose serial field is present and non-null
(the empty string) is nevertheless skipped — the snapshot comes out empty and
the entry is logged — because the code tests truthiness, not only
absence/null. -/
theorem snapshot_empty_serial_counterexample :
    (buildBySerial [[("serial", JValue.str "")]]).1 = [] ∧
    jGet [("serial", JValue.str "")] "serial" = JValue.str "" ∧
    JValue.str "" ≠ JValue.null ∧
    (buildBySerial [[("serial", JValue.str "")]]).2 = [["serial"]] :=
  ⟨rfl, rfl, fun h => JValue.noConfusion h, rfl⟩

/-- C10: when several fetched entries share a truthy serial, the snapshot maps
that serial to the last such entry in list order, wherever that entry sits:
any entry carrying the serial that no later entry (in the trailing `post`
segment) also carries is the one the snapshot returns.  The earlier duplicates
are silently discarded — the build never fails and the debug log covers
exactly the falsy-serial entries, so duplicates are not logged; in
`[A(n=1), A(n=2), B]` the key `A` maps to the second `A` entry. -/
theorem duplicate_serial_last_wins :
    (∀ (pre : List JObj) (q : JObj) (post : List JObj) (k : String),
      (jGet q "serial").toBool = true → pyStr (jGet q "serial") = k →
      (∀ r ∈ post, ¬((jGet r "serial").toBool = true ∧
        pyStr (jGet r "serial") = k)) →
      List.lookup k (buildBySerial (pre ++ q :: post)).1 = some q) ∧
    (∀ ps : List JObj,
      asyncUpdateData (FetchResult.ok ps) = Except.ok ⟨(buildBySerial ps).1⟩) ∧
    (∀ ps : List JObj,
      (buildBySerial ps).2 =
        (ps.filter (fun p => !(jGet p "serial").toBool)).map (List.map Prod.fst)) ∧
    (List.lookup "A"
        (buildBySerial [[("serial", JValue.str "A"), ("n", JValue.num 1)],
          [("serial", JValue.str "A"), ("n", JValue.num 2)],
          [("serial", JValue.str "B")]]).1 =
      some [("serial", JValue.str "A"), ("n", JValue.num 2)] ∧
     (buildBySerial [[("serial", JValue.str "A"), ("n", JValue.num 1)],
        [("serial", JValue.str "A"), ("n", JValue.num 2)],
        [("serial", JValue.str "B")]]).2 = []) := by
  refine ⟨?_, fun ps => rfl, fun ps => by simpa using logs_buildBySerialAux ps [] [],
    rfl, rfl⟩
  intro pre q post k hq hk hpost
  rw [buildBySerial, lookup_buildBySerialAux,
    lastMatch_append_middle pre q post k hq hk hpost]

/-- C10 witness: the general last-wins statement applied to the concrete
`[A(n=1), A(n=2), B]` list, whose middle entry wins the key `A`. -/
theorem duplicate_serial_last_wins_witness :
    List.lookup "A"
        (buildBySerial ([[("serial", JValue.str "A"), ("n", JValue.num 1)]] ++
          [("serial", JValue.str "A"), ("n", JValue.num 2)] ::
          [[("serial", JValue.str "B")]])).1 =
      some [("serial", JValue.str "A"), ("n", JValue.num 2)] :=
  duplicate_serial_last_wins.1 [[("serial", JValue.str "A"), ("n", JValue.num 1)]]
    [("serial", JValue.str "A"), ("n", JValue.num 2)]
    [[("serial", JValue.str "B")]] "A" rfl rfl
    (by
      intro r hr
      rw [List.mem_singleton] at hr
      subst hr
      rintro ⟨-, h2⟩
      exact absurd h2 (by decide))

/-- C3: a data-endpoint response with status `≥ 400` makes `_request` fail with
an API error carrying the status code, path and response body; for 401/403 the
cached token is cleared (so the next `async_get_token` performs a network
request), and for any other failing status the client state is untouched. -/
theorem api_error_handling :
    ∀ (st : ApiState) (path : String) (resp : HttpResponse), 400 ≤ resp.status →
      (requestStep st path resp).2 =
        Except.error (FormlabsApiError.apiError resp.status path resp.text) ∧
      ((resp.status = 401 ∨ resp.status = 403) →
        (requestStep st path resp).1.token = JValue.null ∧
        ∀ resp', (getToken (requestStep st path resp).1 resp').2.2 = 1) ∧
      (¬(resp.status = 401 ∨ resp.status = 403) →
        (requestStep st path resp).1 = st) := by
  intro st path resp h
  unfold requestStep
  rw [if_pos h]
  refine ⟨rfl, ?_, ?_⟩
  · intro h2
    rw [if_pos h2]
    refine ⟨rfl, ?_⟩
    intro resp'
    exact getToken_count_of_no_token _ resp' rfl
  · intro h2
    rw [if_neg h2]

/-- C3 witness: a 401 on `/printers/` raises the annotated API error and
clears the cached token. -/
theorem api_error_handling_witness :
    (requestStep ⟨JValue.str "T", JValue.str "Bearer"⟩ "/printers/"
        ⟨401, "denied", JValue.null⟩).2 =
      Except.error (FormlabsApiError.apiError 401 "/printers/" "denied") ∧
    (requestStep ⟨JValue.str "T", JValue.str "Bearer"⟩ "/printers/"
        ⟨401, "denied", JValue.null⟩).1.token = JValue.null := by
  have h := api_error_handling ⟨JValue.str "T", JValue.str "Bearer"⟩ "/printers/"
    ⟨401, "denied", JValue.null⟩ (by norm_num)
  exact ⟨h.1, (h.2.1 (Or.inl rfl)).1⟩

/-- C4: a cached (truthy) token is returned by `async_get_token` with no
network request, and starting from an empty cache a successful exchange makes
exactly one request, after which every further call reuses the cached token
with zero requests. -/
theorem token_cache_reuse :
    (∀ (st : ApiState) (resp : HttpResponse), st.token.toBool = true →
        getToken st resp = (st, Except.ok st.token, 0)) ∧
    (∀ resp : HttpResponse, resp.status = 200 →
        (jGet resp.body.asObj "access_token").toBool = true →
        ∃ st1, getToken initialApiState resp =
            (st1, Except.ok (jGet resp.body.asObj "access_token"), 1) ∧
          ∀ resp', getToken st1 resp' =
            (st1, Except.ok (jGet resp.body.asObj "access_token"), 0)) := by
  constructor
  · intro st resp h
    unfold getToken
    rw [h]
    rfl
  · intro resp h200 htok
    refine ⟨⟨jGet resp.body.asObj "access_token",
      jGetD resp.body.asObj "token_type" (JValue.str "Bearer")⟩, ?_, ?_⟩
    · unfold getToken
      simp [initialApiState, JValue.toBool_null, h200, htok]
    · intro resp'
      unfold getToken
      rw [show (⟨jGet resp.body.asObj "access_token",
        jGetD resp.body.asObj "token_type" (JValue.str "Bearer")⟩ : ApiState).token =
        jGet resp.body.asObj "access_token" from rfl, htok]
      rfl

/-- C4 witness: a concrete 200 exchange caches `"tok0"` after one request and
the second invocation reuses it with zero requests. -/
theorem token_cache_reuse_witness :
    (∃ st1, getToken initialApiState
          ⟨200, "", JValue.obj [("access_token", JValue.str "tok0")]⟩ =
        (st1, Except.ok (JValue.str "tok0"), 1) ∧
      ∀ resp', getToken st1 resp' = (st1, Except.ok (JValue.str "tok0"), 0)) ∧
    getToken ⟨JValue.str "tok0", JValue.str "Bearer"⟩ ⟨500, "down", JValue.null⟩ =
      (⟨JValue.str "tok0", JValue.str "Bearer"⟩, Except.ok (JValue.str "tok0"), 0) := by
  refine ⟨?_, ?_⟩
  · exact token_cache_reuse.2
      ⟨200, "", JValue.obj [("access_token", JValue.str "tok0")]⟩ rfl rfl
  · exact token_cache_reuse.1 ⟨JValue.str "tok0", JValue.str "Bearer"⟩
      ⟨500, "down", JValue.null⟩ rfl

/-- C5 (amended): starting without a cached token, `async_get_token` fails
exactly when the status is not 200 or the payload's access-token value is
falsy (absent, null or empty); a non-200 failure carries the response body; on
success the token and its type label (defaulting to `"Bearer"` when the field
is absent) are cached and the token is returned. -/
theorem token_exchange_validation :
    ∀ (st : ApiState) (resp : HttpResponse), st.token.toBool = false →
      ((∃ e, (getToken st resp).2.1 = Except.error e) ↔
        (resp.status ≠ 200 ∨ (jGet resp.body.asObj "access_token").toBool = false)) ∧
      (resp.status ≠ 200 →
        (getToken st resp).2.1 =
          Except.error (FormlabsAuthError.tokenError resp.status resp.text)) ∧
      (resp.status = 200 → (jGet resp.body.asObj "access_token").toBool = true →
        getToken st resp =
          ({ token := jGet resp.body.asObj "access_token",
             tokenType := jGetD resp.body.asObj "token_type" (JValue.str "Bearer") },
           Except.ok (jGet resp.body.asObj "access_token"), 1)) ∧
      (List.lookup "token_type" resp.body.asObj = none →
        resp.status = 200 → (jGet resp.body.asObj "access_token").toBool = true →
        (getToken st resp).1.tokenType = JValue.str "Bearer") := by
  intro st resp h
  by_cases h200 : resp.status = 200
  · by_cases htok : (jGet resp.body.asObj "access_token").toBool = true
    · have hval : getToken st resp =
          ({ token := jGet resp.body.asObj "access_token",
             tokenType := jGetD resp.body.asObj "token_type" (JValue.str "Bearer") },
           Except.ok (jGet resp.body.asObj "access_token"), 1) := by
        unfold getToken
        simp [h, h200, htok]
      refine ⟨?_, ?_, fun _ _ => hval, ?_⟩
      · rw [hval]
        constructor
        · rintro ⟨e, he⟩
          exact Except.noConfusion he
        · rintro (hne | hfalse)
          · exact absurd h200 hne
          · rw [htok] at hfalse
            exact Bool.noConfusion hfalse
      · intro hne
        exact absurd h200 hne
      · intro hmiss _ _
        rw [hval]
        simp only [jGetD, hmiss]
    · have hfalse : (jGet resp.body.asObj "access_token").toBool = false :=
        Bool.eq_false_iff.mpr htok
      have hval : (getToken st resp).2.1 =
          Except.error (FormlabsAuthError.tokenMissing resp.body.asObj) := by
        unfold getToken
        simp [h, h200, hfalse]
      refine ⟨?_, ?_, ?_, ?_⟩
      · rw [hval]
        exact ⟨fun _ => Or.inr hfalse, fun _ => ⟨_, rfl⟩⟩
      · intro hne
        exact absurd h200 hne
      · intro _ htok2
        exact absurd htok2 htok
      · intro _ _ htok2
        exact absurd htok2 htok
  · have hval : (getToken st resp).2.1 =
        Except.error (FormlabsAuthError.tokenError resp.status resp.text) := by
      unfold getToken
      simp [h, h200]
    refine ⟨?_, fun _ => hval, ?_, ?_⟩
    · rw [hval]
      exact ⟨fun _ => Or.inl h200, fun _ => ⟨_, rfl⟩⟩
    · intro h200'
      exact absurd h200' h200
    · intro _ h200' _
      exact absurd h200' h200

/-- C5 witness: a 500 exchange fails carrying the body, and a plain 200
exchange caches the token with the default `"Bearer"` label. -/
theorem token_exchange_validation_witness :
    (getToken initialApiState ⟨500, "srv-err", JValue.null⟩).2.1 =
      Except.error (FormlabsAuthError.tokenError 500 "srv-err") ∧
    getToken initialApiState
        ⟨200, "", JValue.obj [("access_token", JValue.str "t1")]⟩ =
      ({ token := JValue.str "t1", tokenType := JValue.str "Bearer" },
       Except.ok (JValue.str "t1"), 1) := by
  refine ⟨?_, ?_⟩
  · exact (token_exchange_validation initialApiState ⟨500, "srv-err", JValue.null⟩
      rfl).2.1 (by norm_num)
  · exact (token_exchange_validation initialApiState
      ⟨200, "", JValue.obj [("access_token", JValue.str "t1")]⟩ rfl).2.2.1 rfl rfl

/-- When the fractional part is below one half, Python's round-half-to-even
rounds down to the floor. -/
theorem roundHalfEven_of_floor_lt (q : ℚ) (n : ℤ) (hfl : ⌊q⌋ = n)
    (hlt : q - n < 1/2) : roundHalfEven q = n := by
  unfold roundHalfEven
  rw [hfl, if_pos hlt]

/-- `round(x, 1)` evaluated through the floor of `10 x`. -/
theorem pyRound1_eval (q : ℚ) (n : ℤ) (hfl : ⌊q * 10⌋ = n)
    (hlt : q * 10 - n < 1/2) : pyRound1 q = n / 10 := by
  unfold pyRound1
  rw [roundHalfEven_of_floor_lt _ n hfl hlt]

/-- Clamping to `[0, 100]` is the identity inside the interval. -/
theorem pyClamp_of_bounds (q : ℚ) (h0 : 0 ≤ q) (h1 : q ≤ 100) : pyClamp q = q := by
  unfold pyClamp
  rw [min_eq_right h1, max_eq_right h0]

/-- The layer branch of the progress sensor, evaluated on a run with a numeric
current layer, a nonzero numeric layer count and no direct progress field. -/
theorem progressFromLayers_eval (run : JObj) (a b : ℚ)
    (hdir : progressDirect run = none)
    (hcur : jGet run "currently_printing_layer" = JValue.num a)
    (hcnt : jGet run "layer_count" = JValue.num b) (hb : b ≠ 0) :
    progressFromLayers run = some (pyRound1 (pyClamp (a / b * 100))) ∧
    progressNativeValue
        [("printer_status", JValue.obj [("current_print_run", JValue.obj run)])] =
      JValue.num (pyRound1 (pyClamp (a / b * 100))) := by
  have hlay : progressFromLayers run = some (pyRound1 (pyClamp (a / b * 100))) := by
    unfold progressFromLayers
    rw [hcur, hcnt]
    have hbb : (JValue.num b).toBool = true := by
      simp [JValue.toBool, hb]
    simp only [JValue.isNull, Bool.not_false, hbb, Bool.and_self, if_true, pyFloat]
    rw [if_neg hb]
  refine ⟨hlay, ?_⟩
  have hcpr : currentPrintRun
      [("printer_status", JValue.obj [("current_print_run", JValue.obj run)])] =
      some run := rfl
  have hne : run.isEmpty = false := by
    cases run with
    | nil => exact absurd hcur (fun h => JValue.noConfusion h)
    | cons _ _ => rfl
  rw [progressNativeValue.eq_def, hcpr]
  simp only [hne, Bool.false_eq_true, if_false, hdir, hlay]

/-- The progress sensor on a run whose layer count is zero and whose other
sources yield nothing: the stable `0.0`. -/
theorem progressNativeValue_zero_count (run : JObj)
    (hcnt : jGet run "layer_count" = JValue.num 0)
    (hdir : progressDirect run = none) (htime : progressFromTime run = none) :
    progressNativeValue
        [("printer_status", JValue.obj [("current_print_run", JValue.obj run)])] =
      JValue.num 0 := by
  have hlay : progressFromLayers run = none := by
    unfold progressFromLayers
    rw [hcnt]
    simp [JValue.toBool]
  have hcpr : currentPrintRun
      [("printer_status", JValue.obj [("current_print_run", JValue.obj run)])] =
      some run := rfl
  have hne : run.isEmpty = false := by
    cases run with
    | nil => exact absurd hcnt (fun h => JValue.noConfusion h)
    | cons _ _ => rfl
  rw [progressNativeValue.eq_def, hcpr]
  simp only [hne, Bool.false_eq_true, if_false, hdir, hlay, htime]

/-- C6 (amended): with no direct progress field, a run carrying a numeric
current layer and a nonzero numeric layer count reports
`current / total * 100`, clamped to `[0, 100]` and rounded to one decimal
(`round(x, 1)`), so `currently_printing_layer=50, layer_count=200` gives 25;
when `layer_count` is 0 (and no duration fallback applies) no division is
attempted and the sensor reports the stable `0.0` rather than `None`. -/
theorem progress_percent_from_layers :
    (∀ (run : JObj) (a b : ℚ), progressDirect run = none →
      jGet run "currently_printing_layer" = JValue.num a →
      jGet run "layer_count" = JValue.num b → b ≠ 0 →
      progressFromLayers run = some (pyRound1 (pyClamp (a / b * 100))) ∧
      progressNativeValue
          [("printer_status", JValue.obj [("current_print_run", JValue.obj run)])] =
        JValue.num (pyRound1 (pyClamp (a / b * 100)))) ∧
    (progressNativeValue
        [("printer_status", JValue.obj [("current_print_run", JValue.obj
          [("currently_printing_layer", JValue.num 50),
           ("layer_count", JValue.num 200)])])] = JValue.num 25) ∧
    (∀ run : JObj, jGet run "layer_count" = JValue.num 0 →
      progressDirect run = none → progressFromTime run = none →
      progressNativeValue
          [("printer_status", JValue.obj [("current_print_run", JValue.obj run)])] =
        JValue.num 0) := by
  refine ⟨progressFromLayers_eval, ?_, progressNativeValue_zero_count⟩
  rw [(progressFromLayers_eval
    [("currently_printing_layer", JValue.num 50), ("layer_count", JValue.num 200)]
    50 200 rfl rfl rfl (by norm_num)).2]
  have h1 : (50 : ℚ) / 200 * 100 = 25 := by norm_num
  rw [h1, pyClamp_of_bounds 25 (by norm_num) (by norm_num),
    pyRound1_eval 25 250 (by norm_num) (by norm_num)]
  congr 1
  norm_num

/-- C6 witness: the layer formula applied to the concrete 50-of-200 run. -/
theorem progress_percent_from_layers_witness :
    progressFromLayers [("currently_printing_layer", JValue.num 50),
        ("layer_count", JValue.num 200)] =
      some (pyRound1 (pyClamp (50 / 200 * 100))) ∧
    pyRound1 (pyClamp (50 / 200 * 100)) = 25 := by
  refine ⟨(progress_percent_from_layers.1
    [("currently_printing_layer", JValue.num 50), ("layer_count", JValue.num 200)]
    50 200 rfl rfl rfl (by norm_num)).1, ?_⟩
  have h1 : (50 : ℚ) / 200 * 100 = 25 := by norm_num
  rw [h1, pyClamp_of_bounds 25 (by norm_num) (by norm_num),
    pyRound1_eval 25 250 (by norm_num) (by norm_num)]
  norm_num

/-- C6 counterexample: with `layer_count = 0` the sensor reports `0.0`, not
`None`; and with `currently_printing_layer=1, layer_count=3` it reports the
one-decimal rounding `33.3`, not the exact ratio `100/3`. -/
theorem progress_zero_layers_counterexample :
    progressNativeValue
        [("printer_status", JValue.obj [("current_print_run", JValue.obj
          [("currently_printing_layer", JValue.num 50),
           ("layer_count", JValue.num 0)])])] = JValue.num 0 ∧
    JValue.num 0 ≠ JValue.null ∧
    progressNativeValue
        [("printer_status", JValue.obj [("current_print_run", JValue.obj
          [("currently_printing_layer", JValue.num 1),
           ("layer_count", JValue.num 3)])])] = JValue.num (333/10) ∧
    (333/10 : ℚ) ≠ 100/3 := by
  refine ⟨progressNativeValue_zero_count _ rfl rfl rfl,
    fun h => JValue.noConfusion h, ?_, by norm_num⟩
  rw [(progressFromLayers_eval
    [("currently_printing_layer", JValue.num 1), ("layer_count", JValue.num 3)]
    1 3 rfl rfl rfl (by norm_num)).2]
  have h1 : (1 : ℚ) / 3 * 100 = 100/3 := by norm_num
  rw [h1, pyClamp_of_bounds (100/3) (by norm_num) (by norm_num),
    pyRound1_eval (100/3) 333 (by norm_num [Int.floor_eq_iff]) (by norm_num)]
  congr 1

/-- C7 (amended): the ping-recency rule holds for `FormlabsOnlineBinary` in
`binary_sensor.py` — online iff a last-ping timestamp exists and is at most 10
minutes old, so a 5-minute-old ping is online and a 15-minute-old one is not —
while `FormlabsOnlineBinarySensor` in `custom_components/formlabs/binary_sensor.py`
instead reports online iff a status value is present whose uppercase form is
not `OFFLINE`, `DISCONNECTED` or `UNKNOWN`, ignoring ping times. -/
theorem online_semantics :
    (∀ (now : ℚ) (p : JObj), onlineBinaryIsOn now p = true ↔
      (∃ t, lastPingDt p = some t ∧ now - t ≤ ONLINE_MAX_AGE)) ∧
    (∀ p : JObj, onlineSensorIsOn p = true ↔
      (∃ s, statusStr p = some s ∧
        (["OFFLINE", "DISCONNECTED", "UNKNOWN"].contains (pyUpper s)) = false)) ∧
    (onlineBinaryIsOn 900 [("printer_status",
        JValue.obj [("last_pinged_at", JValue.num 600)])] = true) ∧
    (onlineBinaryIsOn 1500 [("printer_status",
        JValue.obj [("last_pinged_at", JValue.num 600)])] = false) := by
  refine ⟨?_, ?_, ?_, ?_⟩
  · intro now p
    unfold onlineBinaryIsOn
    cases hlp : lastPingDt p with
    | none => simp
    | some t => simp [decide_eq_true_eq]
  · intro p
    unfold onlineSensorIsOn
    cases hs : statusStr p with
    | none => simp
    | some s => simp [Bool.not_eq_true']
  · unfold onlineBinaryIsOn
    rw [show lastPingDt [("printer_status",
      JValue.obj [("last_pinged_at", JValue.num 600)])] = some 600 from rfl]
    exact decide_eq_true (by norm_num [ONLINE_MAX_AGE])
  · unfold onlineBinaryIsOn
    rw [show lastPingDt [("printer_status",
      JValue.obj [("last_pinged_at", JValue.num 600)])] = some 600 from rfl]
    exact decide_eq_false (by norm_num [ONLINE_MAX_AGE])

/-- C7 witness: the two Online indicators evaluated on concrete records
through the characterization above. -/
theorem online_semantics_witness :
    onlineBinaryIsOn 900 [("printer_status",
        JValue.obj [("last_pinged_at", JValue.num 600)])] = true ∧
    (∃ t, lastPingDt [("printer_status",
        JValue.obj [("last_pinged_at", JValue.num 600)])] = some t ∧
      (900 : ℚ) - t ≤ ONLINE_MAX_AGE) :=
  ⟨online_semantics.2.2.1,
    (online_semantics.1 900 [("printer_status",
      JValue.obj [("last_pinged_at", JValue.num 600)])]).mp online_semantics.2.2.1⟩

/-- C7 counterexample: a printer whose status is `PRINTING` but which has no
last-ping timestamp at all is reported online by
`FormlabsOnlineBinarySensor.is_on`, although the claimed ping-recency rule
requires a timestamp to exist. -/
theorem online_status_counterexample :
    onlineSensorIsOn
        [("printer_status", JValue.obj [("status", JValue.str "PRINTING")])] = true ∧
    lastPingDt
        [("printer_status", JValue.obj [("status", JValue.str "PRINTING")])] = none :=
  ⟨rfl, rfl⟩

/-- C8: a cartridge object carrying numeric `initial_volume_ml` and
`volume_dispensed_ml` reports `initial - dispensed` millilitres remaining,
floored at zero; `initial_volume_ml=1000, volume_dispensed_ml=1200` gives 0. -/
theorem cartridge_remaining_floor :
    (∀ (p : JObj) (cart : JObj) (i d : ℚ), cartridgeObj p = some cart →
      jGet cart "initial_volume_ml" = JValue.num i →
      jGet cart "volume_dispensed_ml" = JValue.num d →
      cartridgeRemainingMl p = some (max 0 (i - d))) ∧
    (cartridgeRemainingMl [("cartridge_status", JValue.obj [("cartridge",
        JValue.obj [("initial_volume_ml", JValue.num 1000),
          ("volume_dispensed_ml", JValue.num 1200)])])] = some 0) := by
  have h1 : ∀ (p : JObj) (cart : JObj) (i d : ℚ), cartridgeObj p = some cart →
      jGet cart "initial_volume_ml" = JValue.num i →
      jGet cart "volume_dispensed_ml" = JValue.num d →
      cartridgeRemainingMl p = some (max 0 (i - d)) := ?_
  case _ =>
    refine ⟨h1, ?_⟩
    rw [h1 [("cartridge_status", JValue.obj [("cartridge",
        JValue.obj [("initial_volume_ml", JValue.num 1000),
          ("volume_dispensed_ml", JValue.num 1200)])])]
      [("initial_volume_ml", JValue.num 1000),
        ("volume_dispensed_ml", JValue.num 1200)] 1000 1200 rfl rfl rfl,
      show (1000 : ℚ) - 1200 = -200 by norm_num,
      show max (0 : ℚ) (-200) = 0 from max_eq_left (by norm_num)]
  intro p cart i d hobj hinit hdisp
  have hne : cart.isEmpty = false := by
    cases cart with
    | nil => exact absurd hinit (fun h => JValue.noConfusion h)
    | cons _ _ => rfl
  unfold cartridgeRemainingMl
  rw [hobj]
  simp only [hne, Bool.false_eq_true, if_false, hinit, hdisp, JValue.isNull,
    Bool.or_self, pyFloat]
  rcases le_or_lt 0 (i - d) with hle | hlt
  · rw [if_neg (not_lt.mpr hle), max_eq_right hle]
  · rw [if_pos hlt, max_eq_left (le_of_lt hlt)]

/-- C8 witness: the floor formula applied to the over-dispensed cartridge. -/
theorem cartridge_remaining_floor_witness :
    cartridgeRemainingMl [("cartridge_status", JValue.obj [("cartridge",
        JValue.obj [("initial_volume_ml", JValue.num 1000),
          ("volume_dispensed_ml", JValue.num 1200)])])] =
      some (max 0 (1000 - 1200)) := by
  exact cartridge_remaining_floor.1 _
    [("initial_volume_ml", JValue.num 1000), ("volume_dispensed_ml", JValue.num 1200)]
    1000 1200 rfl rfl rfl

/-- Structural induction over JSON values, with membership hypotheses for the
nested lists. -/
theorem JValue.inductionOn {P : JValue → Prop}
    (hnull : P JValue.null)
    (hbool : ∀ b, P (JValue.bool b))
    (hnum : ∀ q, P (JValue.num q))
    (hstr : ∀ s, P (JValue.str s))
    (harr : ∀ xs, (∀ x, x ∈ xs → P x) → P (JValue.arr xs))
    (hobj : ∀ kvs, (∀ kv, kv ∈ kvs → P kv.2) → P (JValue.obj kvs)) :
    ∀ v, P v
  | JValue.null => hnull
  | JValue.bool b => hbool b
  | JValue.num q => hnum q
  | JValue.str s => hstr s
  | JValue.arr xs => harr xs (fun x hx =>
      JValue.inductionOn hnull hbool hnum hstr harr hobj x)
  | JValue.obj kvs => hobj kvs (fun kv hkv =>
      JValue.inductionOn hnull hbool hnum hstr harr hobj kv.2)
termination_by v => sizeOf v
decreasing_by
  · have := List.sizeOf_lt_of_mem hx
    simp only [JValue.arr.sizeOf_spec]
    omega
  · have h1 := List.sizeOf_lt_of_mem hkv
    have h2 : sizeOf kv.2 < sizeOf kv := by
      obtain ⟨a, b⟩ := kv
      simp only [Prod.mk.sizeOf_spec]
      omega
    simp only [JValue.obj.sizeOf_spec]
    omega

/-- Redaction renames no keys and reorders nothing in a dict. -/
theorem redactObj_keys (kvs : JObj) :
    (redactObj kvs).map Prod.fst = kvs.map Prod.fst := by
  induction kvs with
  | nil => rfl
  | cons kv rest ih =>
    obtain ⟨k, v⟩ := kv
    rw [redactObj]
    by_cases hk : sensitiveKey k = true
    · simp [hk, ih]
    · simp [Bool.eq_false_iff.mpr hk, ih]

/-- A sensitive key present in a dict reads back as the redaction marker. -/
theorem lookup_redactObj_sensitive (kvs : JObj) (k : String) (v : JValue)
    (hs : sensitiveKey k = true) (hl : List.lookup k kvs = some v) :
    List.lookup k (redactObj kvs) = some (JValue.str "***REDACTED***") := by
  induction kvs with
  | nil => exact absurd hl (by simp)
  | cons kv rest ih =>
    obtain ⟨k', v'⟩ := kv
    rw [redactObj]
    rw [List.lookup_cons] at hl
    cases hk : k == k' with
    | true =>
      have : sensitiveKey k' = true := by
        have he : k = k' := by simpa using hk
        exact he ▸ hs
      simp [this, List.lookup_cons, hk]
    | false =>
      rw [hk] at hl
      by_cases hsk : sensitiveKey k' = true
      · simp only [hsk, if_true, List.lookup_cons, hk]
        exact ih hl
      · simp only [Bool.eq_false_iff.mpr hsk, Bool.false_eq_true, if_false,
          List.lookup_cons, hk]
        exact ih hl

/-- A non-sensitive key reads back as the recursive redaction of its value. -/
theorem lookup_redactObj_insensitive (kvs : JObj) (k : String)
    (hs : sensitiveKey k = false) :
    List.lookup k (redactObj kvs) = (List.lookup k kvs).map redact := by
  induction kvs with
  | nil => rfl
  | cons kv rest ih =>
    obtain ⟨k', v'⟩ := kv
    rw [redactObj]
    cases hk : k == k' with
    | true =>
      have he : sensitiveKey k' = false := by
        have : k = k' := by simpa using hk
        exact this ▸ hs
      simp [he, List.lookup_cons, hk]
    | false =>
      by_cases hsk : sensitiveKey k' = true
      · simp only [hsk, if_true, List.lookup_cons, hk]
        exact ih
      · simp only [Bool.eq_false_iff.mpr hsk, Bool.false_eq_true, if_false,
          List.lookup_cons, hk]
        exact ih

/-- The element-wise redaction of a list is a `map`: order and length are
preserved. -/
theorem redactList_map (xs : List JValue) : redactList xs = xs.map redact := by
  induction xs with
  | nil => rfl
  | cons x rest ih => rw [redactList, ih, List.map_cons]

/-- Lists all of whose elements redact to themselves are unchanged. -/
theorem redactList_of_clean (xs : List JValue)
    (ih : ∀ x ∈ xs, cleanJ x = true → redact x = x)
    (h : cleanList xs = true) : redactList xs = xs := by
  induction xs with
  | nil => rfl
  | cons x rest ihl =>
    rw [cleanList, Bool.and_eq_true] at h
    rw [redactList, ih x (List.mem_cons_self x rest) h.1,
      ihl (fun y hy => ih y (List.mem_cons_of_mem _ hy)) h.2]

/-- Dicts with no sensitive key whose values redact to themselves are
unchanged. -/
theorem redactObj_of_clean (kvs : JObj)
    (ih : ∀ kv ∈ kvs, cleanJ kv.2 = true → redact kv.2 = kv.2)
    (h : cleanObj kvs = true) : redactObj kvs = kvs := by
  induction kvs with
  | nil => rfl
  | cons kv rest ihl =>
    obtain ⟨k, v⟩ := kv
    rw [cleanObj, Bool.and_eq_true, Bool.and_eq_true] at h
    obtain ⟨⟨hks, hkv⟩, hrest⟩ := h
    have hk : sensitiveKey k = false := by
      cases hsk : sensitiveKey k
      · rfl
      · rw [hsk] at hks
        exact absurd hks (by simp)
    rw [redactObj, if_neg (by simp [hk]),
      ih ⟨k, v⟩ (List.mem_cons_self _ _) hkv,
      ihl (fun y hy => ih y (List.mem_cons_of_mem _ hy)) hrest]

/-- A value containing no sensitive dict key anywhere is left untouched by
redaction. -/
theorem redact_of_clean (v : JValue) : cleanJ v = true → redact v = v := by
  induction v using JValue.inductionOn with
  | hnull => intro _; rfl
  | hbool b => intro _; rfl
  | hnum q => intro _; rfl
  | hstr s => intro _; rfl
  | harr xs ih =>
    intro h
    rw [cleanJ] at h
    rw [redact, redactList_of_clean xs ih h]
  | hobj kvs ih =>
    intro h
    rw [cleanJ] at h
    rw [redact, redactObj_of_clean kvs ih h]

/-- C9: at every nesting level, `_redact` replaces the value of each dict key
whose lowercased name contains a sensitive substring with the marker
`"***REDACTED***"`; it renames or reorders no keys, maps lists element-wise in
order, returns non-sensitive values redacted only in their interior (values
containing no sensitive key anywhere are returned unchanged); on
`{"access_token": "xyz", "name": "ok"}` it yields the claimed output. -/
theorem redact_spec :
    (∀ (kvs : JObj) (k : String) (v : JValue), sensitiveKey k = true →
      List.lookup k kvs = some v →
      List.lookup k (redactObj kvs) = some (JValue.str "***REDACTED***")) ∧
    (∀ (kvs : JObj) (k : String), sensitiveKey k = false →
      List.lookup k (redactObj kvs) = (List.lookup k kvs).map redact) ∧
    (∀ kvs : JObj, (redactObj kvs).map Prod.fst = kvs.map Prod.fst) ∧
    (∀ xs : List JValue, redactList xs = xs.map redact) ∧
    (∀ v : JValue, cleanJ v = true → redact v = v) ∧
    (redact (JValue.obj [("access_token", JValue.str "xyz"),
        ("name", JValue.str "ok")]) =
      JValue.obj [("access_token", JValue.str "***REDACTED***"),
        ("name", JValue.str "ok")]) :=
  ⟨lookup_redactObj_sensitive, lookup_redactObj_insensitive, redactObj_keys,
    redactList_map, redact_of_clean, rfl⟩

/-- C9 witness: the sensitive-lookup and untouched-value statements applied to
concrete payloads. -/
theorem redact_spec_witness :
    List.lookup "access_token"
        (redactObj [("access_token", JValue.str "xyz"), ("name", JValue.str "ok")]) =
      some (JValue.str "***REDACTED***") ∧
    redact (JValue.obj [("name", JValue.str "ok")]) =
      JValue.obj [("name", JValue.str "ok")] :=
  ⟨redact_spec.1 [("access_token", JValue.str "xyz"), ("name", JValue.str "ok")]
      "access_token" (JValue.str "xyz") rfl rfl,
    redact_spec.2.2.2.2.1 (JValue.obj [("name", JValue.str "ok")]) rfl⟩

/-- C5 counterexample: a 200 response whose `access_token` field is present
but empty still fails — `async_get_token` tests the value's truthiness, not
the field's presence. -/
theorem token_empty_access_token_counterexample :
    getToken initialApiState
        ⟨200, "", JValue.obj [("access_token", JValue.str "")]⟩ =
      ({ token := JValue.str "", tokenType := JValue.str "Bearer" },
       Except.error (FormlabsAuthError.tokenMissing
         [("access_token", JValue.str "")]), 1) ∧
    List.lookup "access_token" [("access_token", JValue.str "")] =
      some (JValue.str "") :=
  ⟨rfl, rfl⟩

end Formlabs
